import Mathlib

/-!
# Verification of the baileys-microservice glue code

Shallow embedding of the HTTP route tables, middleware, SSE broadcaster,
QR / send / delete / chats handlers and the connection-close reconnect
logic of the repository's variants:

* `ServerA` — first document of `src/server.js` (lines 1-184)
* `ServerB` — second document of `src/server.js` (lines 185-441)
* `ServerC` — third document of `src/server.js` (lines 442-759)
* `Part000` — `src/unnamed/part_000`
* `Part001` — `src/unnamed/part_001`
* `BaileysA`/`BaileysB` — the two documents of `src/baileys.js`
* `Part002` — `src/unnamed/part_002`

JavaScript `Map` objects are modelled as association lists with unique
keys (`lookup` / first-occurrence update / delete-all-occurrences);
machine strings are Lean `String`s; absent (`undefined`) values are
`Option`s.
-/

namespace Js

/-- JS `String.prototype.endsWith` / an end-anchored regex alternative
such as `/@s\.whatsapp\.net$|@g\.us$/` applied to one branch:
`t` is a suffix of `s`. -/
def endsWith (s t : String) : Bool := t.data.isSuffixOf s.data

/-- JS `String.prototype.trim`: strip leading and trailing whitespace. -/
def trim (s : String) : String :=
  String.mk
    (((s.data.dropWhile Char.isWhitespace).reverse.dropWhile
        Char.isWhitespace).reverse)

/-- JS `String.prototype.includes` with a one-character needle. -/
def includesChar (s : String) (c : Char) : Bool := s.data.contains c

/-- First-occurrence lookup, the read operation of a JS `Map`
(keys of a `Map` are unique). -/
def mapGet (m : List (String × β)) (k : String) : Option β := m.lookup k

/-- `Map.prototype.delete`: removes the entry with key `k`. -/
def mapDelete (m : List (String × β)) (k : String) : List (String × β) :=
  m.filter (fun p => p.1 ≠ k)

/-- Update the (unique) entry with key `k` in place, if present. -/
def mapUpdate (m : List (String × β)) (k : String) (f : β → β) :
    List (String × β) :=
  match m with
  | [] => []
  | (a, b) :: rest =>
      if a = k then (a, f b) :: rest else (a, b) :: mapUpdate rest k f

theorem lookup_mapUpdate (m : List (String × β)) (k : String) (f : β → β) :
    (mapUpdate m k f).lookup k = (m.lookup k).map f := by
  induction m with
  | nil => simp [mapUpdate]
  | cons p rest ih =>
      obtain ⟨a, b⟩ := p
      by_cases h : a = k
      · subst h
        simp [mapUpdate, List.lookup]
      · have hba : (k == a) = false := by
          simp [beq_iff_eq]
          exact fun e => h e.symm
        simp [mapUpdate, h, List.lookup, hba, ih]

theorem lookup_mapDelete (m : List (String × β)) (k : String) :
    (mapDelete m k).lookup k = none := by
  induction m with
  | nil => simp [mapDelete]
  | cons p rest ih =>
      obtain ⟨a, b⟩ := p
      by_cases h : a = k
      · subst h
        simpa [mapDelete] using ih
      · have hba : (k == a) = false := by
          simp [beq_iff_eq]
          exact fun e => h e.symm
        simpa [mapDelete, h, List.lookup, hba] using ih

theorem mapDelete_mapDelete (m : List (String × β)) (k : String) :
    mapDelete (mapDelete m k) k = mapDelete m k := by
  simp [mapDelete, List.filter_filter]

end Js

/-! ## Route tables (claim C1)

Transcribed from the `app.get` / `app.post` / `app.delete` registrations
of each variant. -/

inductive Method where
  | GET
  | POST
  | DELETE
deriving DecidableEq, Repr

structure Route where
  method : Method
  path : String
deriving DecidableEq, Repr

inductive Variant where
  | serverA
  | serverB
  | serverC
  | part000
  | part001
deriving DecidableEq, Repr

/-- The route registrations of each variant, in source order.
`ServerA` registers `POST /sessions/:id/send` twice (lines 134 and 156
of `src/server.js`); Express dispatches to the first, and we keep one
entry per distinct route. -/
def routes : Variant → List Route
  | .serverA =>
      [⟨.GET, "/"⟩, ⟨.POST, "/sessions"⟩, ⟨.GET, "/sessions/:id/status"⟩,
       ⟨.GET, "/sessions/:id/qr.png"⟩, ⟨.POST, "/sessions/:id/send"⟩,
       ⟨.DELETE, "/sessions/:id"⟩]
  | .serverB =>
      [⟨.GET, "/session/qr"⟩, ⟨.GET, "/session/status"⟩, ⟨.GET, "/chats"⟩,
       ⟨.GET, "/messages"⟩, ⟨.POST, "/messages/send"⟩, ⟨.GET, "/events"⟩]
  | .serverC =>
      [⟨.GET, "/"⟩, ⟨.POST, "/sessions"⟩, ⟨.GET, "/sessions/:id/status"⟩,
       ⟨.GET, "/sessions/:id/qr.png"⟩, ⟨.GET, "/sessions/:id/chats"⟩,
       ⟨.GET, "/sessions/:id/messages"⟩, ⟨.POST, "/sessions/:id/send"⟩,
       ⟨.GET, "/sessions/:id/stream"⟩]
  | .part000 =>
      [⟨.GET, "/"⟩, ⟨.POST, "/sessions"⟩, ⟨.GET, "/sessions/:id/status"⟩,
       ⟨.GET, "/sessions/:id/qr.png"⟩, ⟨.GET, "/sessions/:id/chats"⟩,
       ⟨.GET, "/sessions/:id/messages"⟩, ⟨.POST, "/sessions/:id/send"⟩,
       ⟨.GET, "/sessions/:id/stream"⟩]
  | .part001 =>
      [⟨.GET, "/session/qr"⟩, ⟨.GET, "/session/status"⟩, ⟨.GET, "/chats"⟩,
       ⟨.GET, "/messages"⟩, ⟨.POST, "/messages/send"⟩, ⟨.GET, "/events"⟩,
       ⟨.GET, "/debug/poke"⟩]

/-- The operations named by the spec sentence behind C1. -/
inductive Op where
  | createSession
  | qrRender
  | listChats
  | listMessages
  | sendText
  | sseStream
deriving DecidableEq, Repr

/-- Which concrete route implements which operation, read off from the
handler bodies of the variants. -/
def implementsOp (op : Op) (r : Route) : Bool :=
  match op with
  | .createSession => r = ⟨.POST, "/sessions"⟩
  | .qrRender =>
      r = ⟨.GET, "/sessions/:id/qr.png"⟩ ∨ r = ⟨.GET, "/session/qr"⟩
  | .listChats =>
      r = ⟨.GET, "/chats"⟩ ∨ r = ⟨.GET, "/sessions/:id/chats"⟩
  | .listMessages =>
      r = ⟨.GET, "/messages"⟩ ∨ r = ⟨.GET, "/sessions/:id/messages"⟩
  | .sendText =>
      r = ⟨.POST, "/sessions/:id/send"⟩ ∨ r = ⟨.POST, "/messages/send"⟩
  | .sseStream =>
      r = ⟨.GET, "/events"⟩ ∨ r = ⟨.GET, "/sessions/:id/stream"⟩

/-- A variant serves an operation when its route table contains a route
implementing it. -/
def serves (v : Variant) (op : Op) : Bool :=
  (routes v).any (implementsOp op)

/-- The serve matrix actually realised by the code. -/
def servesExpected (v : Variant) (op : Op) : Bool :=
  match v, op with
  | .serverA, .createSession => true
  | .serverA, .qrRender => true
  | .serverA, .sendText => true
  | .serverA, _ => false
  | .serverB, .createSession => false
  | .serverB, _ => true
  | .serverC, _ => true
  | .part000, _ => true
  | .part001, .createSession => false
  | .part001, _ => true

/-! ## Connection-close reconnect logic (claim C2)

Each variant registers a `connection.update` handler; on
`connection === "close"` it inspects the disconnect status code and
decides whether and how to call its start/connect function again.
`DisconnectReason.loggedOut` of the Baileys library is the numeric
code 401 (the second `src/baileys.js` document and `src/unnamed/part_002`
compare against the literal 401 interchangeably with it). -/

def loggedOutCode : Nat := 401

/-- What a close handler does about reconnecting: nothing, an immediate
synchronous call of the start function, or a `setTimeout` with the given
delay in milliseconds. -/
inductive ReconnectAction where
  | none
  | immediate
  | delayed (ms : Nat)
deriving DecidableEq, Repr

inductive CloseHandler where
  | baileysA
  | baileysB
  | serverB
  | serverC
  | part000
  | part001
  | part002
deriving DecidableEq, Repr

/-- The close branch of each variant's `connection.update` handler.
The input is the status code of `lastDisconnect.error` (`none` when no
error object is present).

* `baileysA` (`src/baileys.js` lines 52-63): reconnects via
  `setTimeout(..., 2000)` when an error has a code other than
  `loggedOut`, or when there is no error at all.
* `baileysB` (`src/baileys.js` lines 122-148): code defaults to 0;
  `loggedOut`/401 clears auth and stops, otherwise `setTimeout(..., 2000)`.
* `serverB` (`src/server.js` lines 298-308): `statusCode !== loggedOut`
  triggers a direct `startSock()` call, with no timer.
* `serverC` (`src/server.js` lines 554-561) and `part000`
  (`src/unnamed/part_000` lines 98-104): `setTimeout(..., 1000)` unless
  the code equals `loggedOut`.
* `part001` (`src/unnamed/part_001` lines 146-150): direct `startSock()`.
* `part002` (`src/unnamed/part_002` lines 21-25): code defaults to 0;
  direct `await startBaileys(...)` when the code is not 401. -/
def onClose : CloseHandler → Option Nat → ReconnectAction
  | .baileysA, code =>
      match code with
      | Option.none => .delayed 2000
      | some c => if c ≠ loggedOutCode then .delayed 2000 else .none
  | .baileysB, code =>
      if code.getD 0 = loggedOutCode ∨ code.getD 0 = 401 then .none
      else .delayed 2000
  | .serverB, code =>
      match code with
      | Option.none => .immediate
      | some c => if c ≠ loggedOutCode then .immediate else .none
  | .serverC, code =>
      match code with
      | Option.none => .delayed 1000
      | some c => if c ≠ loggedOutCode then .delayed 1000 else .none
  | .part000, code =>
      match code with
      | Option.none => .delayed 1000
      | some c => if c ≠ loggedOutCode then .delayed 1000 else .none
  | .part001, code =>
      match code with
      | Option.none => .immediate
      | some c => if c ≠ loggedOutCode then .immediate else .none
  | .part002, code =>
      if code.getD 0 ≠ 401 then .immediate else .none

/-- Whether an action is a delayed reconnect, as C2 demands. -/
def ReconnectAction.isDelayed : ReconnectAction → Bool
  | .delayed _ => true
  | _ => false

/-- How each variant reconnects when it does. -/
def reconnectStyle : CloseHandler → ReconnectAction
  | .baileysA => .delayed 2000
  | .baileysB => .delayed 2000
  | .serverB => .immediate
  | .serverC => .delayed 1000
  | .part000 => .delayed 1000
  | .part001 => .immediate
  | .part002 => .immediate

/-- C1 (counterexample): the first `src/server.js` variant has no route
implementing the list-chats operation, so not every variant exposes
handlers for all the operations the claim lists. -/
theorem c1_counterexample : serves Variant.serverA Op.listChats = false := by
  decide

/-- C1 (amended): the serve matrix of each variant is exactly
`servesExpected`: the third `src/server.js` variant and `part_000`
expose all six operations; the second `src/server.js` variant and
`part_001` expose all but session creation (their single session is
started at boot); the first `src/server.js` variant exposes session
creation, QR rendering and text sending but no chats, messages or SSE
endpoint. -/
theorem c1_amended_serve_matrix :
    ∀ (v : Variant) (op : Op), serves v op = servesExpected v op := by
  intro v op
  cases v <;> cases op <;> decide

/-- C2 (counterexample): in the second `src/server.js` variant's close
branch, a close without a `loggedOut` status code (here: no error object
at all, so the status code is absent and differs from `loggedOut`)
triggers a reconnect, but a direct synchronous `startSock()` call rather
than one after a fixed delay. -/
theorem c2_counterexample :
    onClose CloseHandler.serverB Option.none = ReconnectAction.immediate ∧
    (onClose CloseHandler.serverB Option.none).isDelayed = false ∧
    onClose CloseHandler.serverB Option.none ≠ ReconnectAction.none := by
  decide

/-- C2 (amended): every variant's close handler reconnects exactly when
the status code differs from `DisconnectReason.loggedOut` (= 401), a
missing code counting as different; when it reconnects, the two
`src/baileys.js` variants use a 2000 ms `setTimeout`, the third
`src/server.js` variant and `part_000` a 1000 ms `setTimeout`, and the
second `src/server.js` variant, `part_001` and `part_002` call the start
function again immediately with no delay. -/
theorem c2_amended_reconnect :
    ∀ (h : CloseHandler) (code : Option Nat),
      onClose h code =
        if code = some loggedOutCode then ReconnectAction.none
        else reconnectStyle h := by
  intro h code
  cases h <;> cases code <;>
    simp [onClose, reconnectStyle, loggedOutCode]

/-! ## API-key middleware (claim C3)

`ServerA` installs a global middleware checking POST/DELETE requests
(`src/server.js` lines 38-46); `ServerB` and `Part001` install a global
middleware letting GET through and checking everything else
(`src/server.js` lines 234-240, `src/unnamed/part_001` lines 76-81);
`ServerC` and `Part000` attach a per-route `guard` to every POST route
(they register no DELETE route), comparing the header against the key
(`src/server.js` lines 477-482, `src/unnamed/part_000` lines 36-40). -/

inductive MwResult where
  | next
  | reject (status : Nat) (errBody : String)
deriving DecidableEq, Repr

def MwResult.isReject401 : MwResult → Bool
  | .reject 401 _ => true
  | _ => false

/-- The API key each variant ends up using, from its environment
variable. `ServerA`, `ServerB` and `Part001` use
`process.env.API_KEY || ""`; `ServerC` and `Part000` use
`process.env.API_KEY || "dev-key"` (a falsy env value, absent or empty,
falls back to the default). -/
def resolveApiKey (v : Variant) (env : Option String) : String :=
  match v with
  | .serverA | .serverB | .part001 =>
      match env with
      | Option.none => ""
      | some s => s
  | .serverC | .part000 =>
      match env with
      | Option.none => "dev-key"
      | some s => if s = "" then "dev-key" else s

/-- The middleware decision of each variant for a request with the given
method and `x-api-key` header (`none` when the header is absent), with
`apiKey` the value computed by `resolveApiKey`. A JS strict equality
`key === API_KEY` with an absent header is false. -/
def runMw (v : Variant) (apiKey : String) (method : Method)
    (header : Option String) : MwResult :=
  match v with
  | .serverA =>
      if method = .POST ∨ method = .DELETE then
        if apiKey = "" ∨ header = some apiKey then .next
        else .reject 401 "Invalid API key"
      else .next
  | .serverB =>
      if method = .GET then .next
      else if apiKey = "" ∨ header = some apiKey then .next
      else .reject 401 "invalid api key"
  | .part001 =>
      if method = .GET then .next
      else if apiKey = "" ∨ header = some apiKey then .next
      else .reject 401 "invalid api key"
  | .serverC =>
      if header = some apiKey then .next else .reject 401 "Unauthorized"
  | .part000 =>
      if header = some apiKey then .next else .reject 401 "Unauthorized"

/-- C3: for every variant and every POST or DELETE request, when a
(nonempty) API key is in force and the `x-api-key` header differs from
it the middleware rejects with status 401 and an error body, so the
route handler is not reached; when no key is in force or the header
matches, the request proceeds to the handler. -/
theorem c3_api_key_guard :
    ∀ (v : Variant) (env : Option String) (method : Method)
      (header : Option String),
      method = Method.POST ∨ method = Method.DELETE →
      (resolveApiKey v env ≠ "" ∧ header ≠ some (resolveApiKey v env) →
        (runMw v (resolveApiKey v env) method header).isReject401 = true) ∧
      (resolveApiKey v env = "" ∨ header = some (resolveApiKey v env) →
        runMw v (resolveApiKey v env) method header = MwResult.next) := by
  intro v env method header hm
  constructor
  · rintro ⟨hkey, hhdr⟩
    cases v <;>
      rcases hm with hm | hm <;> subst hm <;>
        simp_all [runMw, MwResult.isReject401]
  · intro hok
    cases v <;>
      rcases hm with hm | hm <;> subst hm <;>
        rcases hok with hok | hok <;>
          cases env <;>
            simp_all [runMw, resolveApiKey] <;>
              split at hok <;> simp_all

/-- C3 witness: a concrete run of the guard middleware of `part_000`
with the default key in force: a mismatching header is rejected with
status 401. -/
theorem c3_api_key_guard_witness :
    (Method.POST = Method.POST ∨ Method.POST = Method.DELETE) ∧
    ((resolveApiKey Variant.part000 Option.none ≠ "" ∧
        some "wrong" ≠ some (resolveApiKey Variant.part000 Option.none) →
      (runMw Variant.part000 (resolveApiKey Variant.part000 Option.none)
        Method.POST (some "wrong")).isReject401 = true) ∧
     (resolveApiKey Variant.part000 Option.none = "" ∨
        some "wrong" = some (resolveApiKey Variant.part000 Option.none) →
      runMw Variant.part000 (resolveApiKey Variant.part000 Option.none)
        Method.POST (some "wrong") = MwResult.next)) :=
  ⟨Or.inl rfl,
   c3_api_key_guard Variant.part000 Option.none Method.POST (some "wrong")
     (Or.inl rfl)⟩

/-! ## SSE broadcast (claims C4 and C6)

A connected SSE subscriber is modelled by the list of frames written to
its response stream so far. `ServerB` (and identically `Part001`) keeps
a global `sseClients` set and writes one frame per event to every
member; `Part000` keeps a per-session `sseMap` of emitters and each
subscriber of that session writes one frame per emitted event. -/

/-- One SSE frame: the text written per event, with `payload` standing
for the JSON-serialised data. -/
def sseFrame (event payload : String) : String :=
  "event: " ++ event ++ "\ndata: " ++ payload ++ "\n\n"

namespace ServerB

/-- `src/server.js` lines 256-261: build the frame once, then
`res.write(data)` for every client of the global `sseClients` set. -/
def broadcast (event payload : String) (clients : List (List String)) :
    List (List String) :=
  clients.map (fun buf => buf ++ [sseFrame event payload])

/-- A sequence of emissions, applied in order. -/
def broadcastSeq (evs : List (String × String))
    (clients : List (List String)) : List (List String) :=
  evs.foldl (fun cs e => broadcast e.1 e.2 cs) clients

end ServerB

namespace Part001

/-- `src/unnamed/part_001` lines 94-99: identical to `ServerB.broadcast`. -/
def broadcast (event payload : String) (clients : List (List String)) :
    List (List String) :=
  clients.map (fun buf => buf ++ [sseFrame event payload])

def broadcastSeq (evs : List (String × String))
    (clients : List (List String)) : List (List String) :=
  evs.foldl (fun cs e => broadcast e.1 e.2 cs) clients

end Part001

namespace Part000

/-- `src/unnamed/part_000` lines 46-50: look the session's emitter up in
`sseMap`; if absent do nothing, otherwise emit, which makes every
listening subscriber of that session write one frame
(lines 256-267: `onSse` writes the event name and data lines). -/
def broadcast (sseMap : List (String × List (List String)))
    (sessionId event payload : String) :
    List (String × List (List String)) :=
  match Js.mapGet sseMap sessionId with
  | Option.none => sseMap
  | some _ =>
      Js.mapUpdate sseMap sessionId
        (fun clients => clients.map (fun buf => buf ++ [sseFrame event payload]))

/-- A sequence of emissions `(sessionId, event, payload)`, in order. -/
def broadcastSeq (evs : List (String × String × String))
    (sseMap : List (String × List (List String))) :
    List (String × List (List String)) :=
  evs.foldl (fun m e => broadcast m e.1 e.2.1 e.2.2) sseMap

/-- The frames a subscriber of session `s` receives from an emission
sequence: exactly the frames of its own session's events, in emission
order. -/
def framesFor (s : String) (evs : List (String × String × String)) :
    List String :=
  evs.filterMap
    (fun e => if e.1 = s then some (sseFrame e.2.1 e.2.2) else Option.none)

end Part000

theorem foldl_write_map (f : α → String) (evs : List α)
    (clients : List (List String)) :
    evs.foldl (fun cs a => cs.map (fun buf => buf ++ [f a])) clients =
      clients.map (fun buf => buf ++ evs.map f) := by
  induction evs generalizing clients with
  | nil => simp
  | cons e rest ih =>
      simp only [List.foldl_cons, ih, List.map_map, List.map_cons]
      refine List.map_congr_left (fun buf _ => ?_)
      simp

theorem lookup_mapUpdate_ne (m : List (String × β)) (k k' : String)
    (f : β → β) (h : k ≠ k') :
    (Js.mapUpdate m k f).lookup k' = m.lookup k' := by
  induction m with
  | nil => simp [Js.mapUpdate]
  | cons p rest ih =>
      obtain ⟨a, b⟩ := p
      by_cases ha : a = k
      · subst ha
        have : (k' == a) = false := by
          simp [beq_iff_eq]
          exact fun e => h (e.symm)
        simp [Js.mapUpdate, List.lookup, this]
      · simp [Js.mapUpdate, ha, List.lookup, ih]

theorem part000_lookup_broadcast
    (m : List (String × List (List String))) (sid ev pl s : String) :
    (Part000.broadcast m sid ev pl).lookup s =
      if sid = s then
        (m.lookup s).map
          (fun clients => clients.map (fun buf => buf ++ [sseFrame ev pl]))
      else m.lookup s := by
  by_cases hs : sid = s
  · subst hs
    unfold Part000.broadcast
    cases hm : Js.mapGet m sid with
    | none =>
        have hm2 : List.lookup sid m = Option.none := hm
        simp [hm2]
    | some clients =>
        simp [Js.lookup_mapUpdate]
  · unfold Part000.broadcast
    cases hm : Js.mapGet m sid with
    | none => simp [hs]
    | some clients =>
        simp [hs, lookup_mapUpdate_ne _ _ _ _ hs]

theorem serverB_broadcastSeq_eq (evs : List (String × String))
    (clients : List (List String)) :
    ServerB.broadcastSeq evs clients =
      clients.map (fun buf => buf ++ evs.map (fun e => sseFrame e.1 e.2)) := by
  simp only [ServerB.broadcastSeq, ServerB.broadcast]
  exact foldl_write_map _ evs clients

theorem part001_broadcastSeq_eq (evs : List (String × String))
    (clients : List (List String)) :
    Part001.broadcastSeq evs clients =
      clients.map (fun buf => buf ++ evs.map (fun e => sseFrame e.1 e.2)) := by
  simp only [Part001.broadcastSeq, Part001.broadcast]
  exact foldl_write_map _ evs clients

/-- C4: the SSE re-broadcasters deliver events in emission order.
For the global-set variants (`ServerB`, `Part001`) every subscriber's
stream after a sequence of emissions is its previous stream followed by
the frames of the emitted events, in the emission sequence; for the
per-session variant (`Part000`) every subscriber of a session receives,
in order, exactly the frames of its session's events. -/
theorem c4_sse_emission_order :
    (∀ (evs : List (String × String)) (clients : List (List String)),
      ServerB.broadcastSeq evs clients =
        clients.map (fun buf => buf ++ evs.map (fun e => sseFrame e.1 e.2))) ∧
    (∀ (evs : List (String × String)) (clients : List (List String)),
      Part001.broadcastSeq evs clients =
        clients.map (fun buf => buf ++ evs.map (fun e => sseFrame e.1 e.2))) ∧
    (∀ (evs : List (String × String × String))
       (m : List (String × List (List String))) (s : String),
      (Part000.broadcastSeq evs m).lookup s =
        (m.lookup s).map
          (fun clients =>
            clients.map (fun buf => buf ++ Part000.framesFor s evs))) := by
  refine ⟨serverB_broadcastSeq_eq, part001_broadcastSeq_eq, ?_⟩
  · intro evs
    induction evs with
    | nil =>
        intro m s
        cases hm : m.lookup s <;>
          simp [Part000.broadcastSeq, Part000.framesFor, hm]
    | cons e rest ih =>
        intro m s
        have step :
            Part000.broadcastSeq (e :: rest) m =
              Part000.broadcastSeq rest (Part000.broadcast m e.1 e.2.1 e.2.2) := by
          simp [Part000.broadcastSeq]
        rw [step, ih, part000_lookup_broadcast]
        by_cases hs : e.1 = s
        · simp only [hs, if_pos rfl]
          cases hm : m.lookup s with
          | none => simp
          | some clients =>
              simp [Part000.framesFor, hs, List.map_map]
        · simp [hs, Part000.framesFor]

/-! ## Per-variant bookkeeping shape (claim C6)

Transcribed from the state declarations of each variant:

* `ServerA` (`src/server.js` lines 48, 58-62): `sessions : Map` of
  `sessionId → { sock, lastQrDataUrl }`; no store and no SSE subscribers
  anywhere.
* `ServerB` (`src/server.js` lines 245-255) and `Part001`
  (`src/unnamed/part_001` lines 86-99): a single global `store`, a single
  global `sock` and a global `sseClients` set; no session-keyed map.
* `ServerC` (`src/server.js` lines 484-496) and `Part000`
  (`src/unnamed/part_000` lines 42-50): `sessions : Map` of
  `sessionId → { sock, store }` plus a second map
  `sseMap : Map` of `sessionId → EventEmitter`; the SSE subscribers hang
  off the emitter in `sseMap`, not off the `sessions` values, and
  `broadcast` looks the emitter up in `sseMap`. -/

structure Bookkeeping where
  keyedBySession : Bool
  valuesHoldSock : Bool
  valuesHoldStore : Bool
  valuesHoldSubscribers : Bool
  broadcastLooksUpSessionMap : Bool
deriving DecidableEq, Repr

def bookkeeping : Variant → Bookkeeping
  | .serverA => ⟨true, true, false, false, false⟩
  | .serverB => ⟨false, false, false, false, false⟩
  | .serverC => ⟨true, true, true, false, false⟩
  | .part000 => ⟨true, true, true, false, false⟩
  | .part001 => ⟨false, false, false, false, false⟩

/-- C6 (counterexample): the second `src/server.js` variant holds its
socket, store and SSE subscribers in globals, not in any
sessionId-keyed map, so the claimed recurring component is not present
in every variant. -/
theorem c6_counterexample :
    bookkeeping Variant.serverB ≠
      (⟨true, true, true, true, true⟩ : Bookkeeping) ∧
    (bookkeeping Variant.serverB).keyedBySession = false := by
  decide

/-- C6 (amended): the per-session variants (`ServerC`, `Part000`) keep a
sessionId-keyed `sessions` map whose values hold the socket and store,
with the SSE subscribers in a second sessionId-keyed `sseMap`; the
broadcast fan-out looks the subscribers up in `sseMap` (in particular it
does nothing when the session has no emitter there). The single-session
variants (`ServerB`, `Part001`) keep one global socket, store and
subscriber set, and the first variant keeps a sessionId-keyed map of
socket and last QR only. -/
theorem c6_amended_bookkeeping :
    (∀ (v : Variant), bookkeeping v =
      match v with
      | .serverA => ⟨true, true, false, false, false⟩
      | .serverB => ⟨false, false, false, false, false⟩
      | .serverC => ⟨true, true, true, false, false⟩
      | .part000 => ⟨true, true, true, false, false⟩
      | .part001 => ⟨false, false, false, false, false⟩) ∧
    (∀ (m : List (String × List (List String))) (sid ev pl : String),
      m.lookup sid = Option.none → Part000.broadcast m sid ev pl = m) ∧
    (∀ (m : List (String × List (List String))) (sid ev pl s : String),
      (Part000.broadcast m sid ev pl).lookup s =
        if sid = s then
          (m.lookup s).map
            (fun clients =>
              clients.map (fun buf => buf ++ [sseFrame ev pl]))
        else m.lookup s) := by
  refine ⟨?_, ?_, part000_lookup_broadcast⟩
  · intro v
    cases v <;> rfl
  · intro m sid ev pl h
    unfold Part000.broadcast
    have h2 : Js.mapGet m sid = Option.none := h
    rw [h2]

/-- C6 witness: the amended statement at concrete inputs — the serve
table entry of the third variant, a broadcast to a session without an
emitter (no-op), and a broadcast delivered to the one subscriber found
in `sseMap`. -/
theorem c6_amended_bookkeeping_witness :
    bookkeeping Variant.serverC =
      (⟨true, true, true, false, false⟩ : Bookkeeping) ∧
    Part000.broadcast [] "s" "ev" "pl" = [] ∧
    (Part000.broadcast [("s", [[]])] "s" "ev" "pl").lookup "s" =
      some [[sseFrame "ev" "pl"]] := by
  have H := c6_amended_bookkeeping
  refine ⟨H.1 Variant.serverC, H.2.1 [] "s" "ev" "pl" rfl, ?_⟩
  rw [H.2.2 [("s", [[]])] "s" "ev" "pl" "s"]
  simp [List.lookup]

/-! ## JID normalisation of the per-session send handler (claim C8) -/

namespace Part000

/-- `src/unnamed/part_000` line 53: the regex test
`/@s\.whatsapp\.net$|@g\.us$/.test(to)`. -/
def validJid (dest : String) : Bool :=
  Js.endsWith dest "@s.whatsapp.net" || Js.endsWith dest "@g.us"

/-- `jid.replace(/\D+/g, "")`: keep only the decimal digits. -/
def digitsOf (s : String) : String := String.mk (s.data.filter Char.isDigit)

/-- `src/unnamed/part_000` lines 226-230: trim, and unless the string
already ends in a WhatsApp server suffix, strip the non-digits and
append `@s.whatsapp.net`. -/
def normalizeJid (dest : String) : String :=
  let jid := Js.trim dest
  if validJid jid then jid else digitsOf jid ++ "@s.whatsapp.net"

end Part000

theorem endsWith_append (s t : String) : Js.endsWith (s ++ t) t = true := by
  simp [Js.endsWith, String.data_append, List.isSuffixOf_iff_suffix]

/-- C8: the `Invalid jid` branch of the `part_000` send handler is
unreachable: for every nonempty `to`, the normalised jid passes
`validJid`, because it either already passed the suffix test or was
rebuilt as `digits ++ "@s.whatsapp.net"`. -/
theorem c8_invalid_jid_unreachable :
    ∀ (dest : String), dest ≠ "" →
      Part000.validJid (Part000.normalizeJid dest) = true := by
  intro dest _
  unfold Part000.normalizeJid
  by_cases h : Part000.validJid (Js.trim dest)
  · simp [h]
  · simp only [h, if_neg, Bool.false_eq_true, not_false_iff, if_false]
    unfold Part000.validJid
    rw [endsWith_append]
    simp

/-- C8 witness: the handler's normalisation of the concrete input
`"+34 600-111"` produces a jid accepted by `validJid`. -/
theorem c8_invalid_jid_unreachable_witness :
    "+34 600-111" ≠ "" ∧
    Part000.validJid (Part000.normalizeJid "+34 600-111") = true :=
  ⟨by decide, c8_invalid_jid_unreachable "+34 600-111" (by decide)⟩

/-! ## DELETE /sessions/:id (claim C9) -/

namespace ServerA

structure Sock where
  user : Option String
deriving DecidableEq, Repr

/-- The per-session state of the first `src/server.js` variant
(line 58: `{ sock: null, lastQrDataUrl: null }`). -/
structure SessState where
  sock : Option Sock
  lastQrDataUrl : Option String
deriving DecidableEq, Repr

inductive DeleteBody where
  | okTrue
deriving DecidableEq, Repr

/-- `src/server.js` lines 169-176: `sessions.delete(id)`, best-effort
removal of the auth directory (filesystem effect, outside the state we
model), and an unconditional `{ ok: true }` response. -/
def deleteHandler (sessions : List (String × SessState)) (id : String) :
    DeleteBody × List (String × SessState) :=
  (.okTrue, Js.mapDelete sessions id)

end ServerA

/-- C9: deleting a session always answers `{ ok: true }`, whether or not
the session exists; afterwards the id is absent from the sessions map;
and deleting the same id twice gives the same response and final state
as deleting it once. -/
theorem c9_delete_idempotent :
    ∀ (sessions : List (String × ServerA.SessState)) (id : String),
      (ServerA.deleteHandler sessions id).1 = ServerA.DeleteBody.okTrue ∧
      Js.mapGet (ServerA.deleteHandler sessions id).2 id = Option.none ∧
      ServerA.deleteHandler (ServerA.deleteHandler sessions id).2 id =
        ServerA.deleteHandler sessions id := by
  intro sessions id
  refine ⟨rfl, ?_, ?_⟩
  · exact Js.lookup_mapDelete sessions id
  · unfold ServerA.deleteHandler
    rw [Js.mapDelete_mapDelete]


/-! ## Send-message handlers (claims C5 and C8)

Observable behaviour of a send request: HTTP status, response body kind
(error bodies compared up to field naming), and the destination jid
passed to the library's `sendMessage` (`none` when `sendMessage` is
never called). `jidNormalizedUser` belongs to the external Baileys
library and is passed in as a parameter `jnu`. -/

inductive SendErr where
  | sessionNotFound
  | notConnected
  | missingFields
  | invalidJid
deriving DecidableEq, Repr

inductive SendBody where
  | err (e : SendErr)
  | ok
deriving DecidableEq, Repr

structure SendOutcome where
  status : Nat
  body : SendBody
  sentJid : Option String
deriving DecidableEq, Repr

namespace ServerA

/-- `src/server.js` lines 134-154 (`POST /sessions/:id/send`): missing
or sockless session and a disconnected socket answer 400; missing
fields answer 400; otherwise `to` gets `@s.whatsapp.net` appended when
it contains no `@`, is normalised by `jidNormalizedUser`, and the text
is sent. -/
def sendHandler (jnu : String → String)
    (sessions : List (String × SessState)) (id : String)
    (toField textField : Option String) : SendOutcome :=
  match Js.mapGet sessions id with
  | Option.none => ⟨400, .err .sessionNotFound, Option.none⟩
  | some s =>
      match s.sock with
      | Option.none => ⟨400, .err .sessionNotFound, Option.none⟩
      | some sock =>
          if sock.user = Option.none then ⟨400, .err .notConnected, Option.none⟩
          else
            let t := toField.getD ""
            let x := textField.getD ""
            if t = "" ∨ x = "" then ⟨400, .err .missingFields, Option.none⟩
            else
              let t2 := if Js.includesChar t '@' then t else t ++ "@s.whatsapp.net"
              ⟨200, .ok, some (jnu t2)⟩

end ServerA

namespace Part000

/-- The socket of a `part_000` session: its login state and the last
pairing QR stashed on it (`sock.__lastQr`). -/
structure Sock where
  user : Option String
  lastQr : Option String
deriving DecidableEq, Repr

/-- One chat record of the in-memory store, reduced to the field the
chats route reads, plus an identifying payload. -/
structure Chat where
  cid : String
  lastMessageRecvTimestamp : Option Int
deriving DecidableEq, Repr

structure Store where
  chats : List Chat
deriving DecidableEq, Repr

/-- `src/unnamed/part_000` line 111: `const ref = { sock, store }`. -/
structure Ref where
  sock : Sock
  store : Store
deriving DecidableEq, Repr

/-- `src/unnamed/part_000` lines 218-239 (`POST /sessions/:id/send`):
a missing session answers 404; missing fields 400; then the jid is
normalised (lines 226-230, our `normalizeJid`), re-checked with
`validJid`, and the text is sent. The handler never consults
`ref.sock.user`. -/
def sendHandler (sessions : List (String × Ref)) (id : String)
    (toField textField : Option String) : SendOutcome :=
  match Js.mapGet sessions id with
  | Option.none => ⟨404, .err .sessionNotFound, Option.none⟩
  | some _ =>
      let t := toField.getD ""
      let x := textField.getD ""
      if t = "" ∨ x = "" then ⟨400, .err .missingFields, Option.none⟩
      else
        let jid := normalizeJid t
        if validJid jid = false then ⟨400, .err .invalidJid, Option.none⟩
        else ⟨200, .ok, some jid⟩

end Part000

namespace Part001

/-- `src/unnamed/part_001` lines 234-251 (`POST /messages/send`): no
session lookup (single global socket); missing fields answer 400;
`to` goes through `jidNormalizedUser` unchanged (no suffix logic). -/
def sendHandler (jnu : String → String)
    (toField textField : Option String) : SendOutcome :=
  let t := toField.getD ""
  let x := textField.getD ""
  if t = "" ∨ x = "" then ⟨400, .err .missingFields, Option.none⟩
  else ⟨200, .ok, some (jnu t)⟩

end Part001

/-- C5 (counterexample): the same request (unknown session `"s1"`,
`to = "123"`, `text = "hi"`) gets status 400 from the first variant's
send handler but 404 from `part_000`'s, so the variants' send handlers
are not observably equivalent. -/
theorem c5_counterexample :
    ServerA.sendHandler (fun s => s) [] "s1" (some "123") (some "hi") ≠
      Part000.sendHandler [] "s1" (some "123") (some "hi") ∧
    (ServerA.sendHandler (fun s => s) [] "s1" (some "123") (some "hi")).status
      = 400 ∧
    (Part000.sendHandler [] "s1" (some "123") (some "hi")).status = 404 := by
  decide

/-- C5 (amended): the three send handlers agree only on a restricted
happy path: when the session exists (and, for the first variant, its
socket is connected), both fields are present and nonempty, and `to` is
already a canonical jid (trim-invariant, passing `validJid`, containing
`@`, and a fixed point of `jidNormalizedUser`), all three answer 200
with an ok body and pass the same jid to `sendMessage`. Outside it they
differ: 400 versus 404 for an unknown session, a connectedness check
only in the first variant, and different jid normalisation of bare
phone numbers. -/
theorem c5_amended_send_agreement :
    ∀ (jnu : String → String) (sessionsA : List (String × ServerA.SessState))
      (sessions0 : List (String × Part000.Ref)) (id t x : String)
      (sA : ServerA.SessState) (sockA : ServerA.Sock) (u : String)
      (ref : Part000.Ref),
      Js.mapGet sessionsA id = some sA →
      sA.sock = some sockA →
      sockA.user = some u →
      Js.mapGet sessions0 id = some ref →
      t ≠ "" → x ≠ "" →
      Js.trim t = t →
      Part000.validJid t = true →
      Js.includesChar t '@' = true →
      jnu t = t →
      ServerA.sendHandler jnu sessionsA id (some t) (some x) =
          ⟨200, .ok, some t⟩ ∧
      Part000.sendHandler sessions0 id (some t) (some x) =
          ⟨200, .ok, some t⟩ ∧
      Part001.sendHandler jnu (some t) (some x) = ⟨200, .ok, some t⟩ := by
  intro jnu sessionsA sessions0 id t x sA sockA u ref hA hsock huser h0 ht hx
    htrim hvalid hat hjnu
  refine ⟨?_, ?_, ?_⟩
  · simp [ServerA.sendHandler, hA, hsock, huser, ht, hx, hat, hjnu]
  · unfold Part000.sendHandler
    rw [h0]
    simp only [Option.getD_some]
    rw [if_neg (by simp [ht, hx])]
    unfold Part000.normalizeJid
    rw [htrim]
    simp [hvalid]
  · unfold Part001.sendHandler
    simp [ht, hx, hjnu]

/-- C5 witness: the agreement at a concrete canonical request. -/
theorem c5_amended_send_agreement_witness :
    ServerA.sendHandler (fun s => s)
        [("s1", ⟨some ⟨some "me"⟩, Option.none⟩)] "s1"
        (some "5215550001@s.whatsapp.net") (some "hola") =
      ⟨200, .ok, some "5215550001@s.whatsapp.net"⟩ ∧
    Part000.sendHandler
        [("s1", ⟨⟨some "me", Option.none⟩, ⟨[]⟩⟩)] "s1"
        (some "5215550001@s.whatsapp.net") (some "hola") =
      ⟨200, .ok, some "5215550001@s.whatsapp.net"⟩ ∧
    Part001.sendHandler (fun s => s)
        (some "5215550001@s.whatsapp.net") (some "hola") =
      ⟨200, .ok, some "5215550001@s.whatsapp.net"⟩ :=
  c5_amended_send_agreement (fun s => s)
    [("s1", ⟨some ⟨some "me"⟩, Option.none⟩)]
    [("s1", ⟨⟨some "me", Option.none⟩, ⟨[]⟩⟩)]
    "s1" "5215550001@s.whatsapp.net" "hola"
    ⟨some ⟨some "me"⟩, Option.none⟩ ⟨some "me"⟩ "me"
    ⟨⟨some "me", Option.none⟩, ⟨[]⟩⟩
    (by decide) (by decide) (by decide) (by decide) (by decide) (by decide)
    (by decide) (by decide) (by decide) (by decide)

/-! ## QR rendering endpoints (claim C7)

`ServerA` stores a data URL per session and serves its base64 part as a
PNG; `Part000` stores the raw QR text on the socket and renders it with
`QRCode.toBuffer`; `Part001` keeps the latest QR text (and a debug file
copy) globally and answers a JSON data URL or `{ qr: null }`.
`QRCode.toDataURL` is modelled as the fixed data-URL preamble plus an
abstract base64 encoder `enc`. -/

inductive QrResp where
  | notFound (msg : String)
  | png (base64 : String)
  | pngBuf (qrText : String)
  | jsonQrNull
  | jsonQr (dataUrl : String)
deriving DecidableEq, Repr

/-- `QRCode.toDataURL(qr)`: a PNG data URL whose base64 part is the
encoder's output. -/
def qrToDataURL (enc : String → String) (qr : String) : String :=
  "data:image/png;base64," ++ enc qr

namespace ServerA

/-- `s.lastQrDataUrl.split(",")[1]`. -/
def base64Part (u : String) : String := (u.splitOn ",").getD 1 ""

/-- `src/server.js` lines 125-131 (`GET /sessions/:id/qr.png`): missing
session or missing stored QR answer 404 `QR not ready`; otherwise the
base64 part of the stored data URL is sent as a PNG. -/
def qrHandler (sessions : List (String × SessState)) (id : String) :
    QrResp :=
  match Js.mapGet sessions id with
  | Option.none => .notFound "QR not ready"
  | some s =>
      match s.lastQrDataUrl with
      | Option.none => .notFound "QR not ready"
      | some url => .png (base64Part url)

/-- The `onQr` callback of session creation (`src/server.js` lines
86-88): each QR event overwrites `lastQrDataUrl` with the data URL of
the new QR. -/
def applyQr (enc : String → String) (st : SessState) (qr : String) :
    SessState :=
  { st with lastQrDataUrl := some (qrToDataURL enc qr) }

def applyQrs (enc : String → String) (st : SessState) (qs : List String) :
    SessState :=
  qs.foldl (applyQr enc) st

end ServerA

namespace Part000

/-- `src/unnamed/part_000` lines 144-158 (`GET /sessions/:id/qr.png`):
a missing session answers 404 `Session not found`; a session whose
socket has no stashed QR answers 404 `QR not ready`; otherwise the QR
text is rendered to a PNG buffer. -/
def qrHandler (sessions : List (String × Ref)) (id : String) : QrResp :=
  match Js.mapGet sessions id with
  | Option.none => .notFound "Session not found"
  | some ref =>
      match ref.sock.lastQr with
      | Option.none => .notFound "QR not ready"
      | some qr => .pngBuf qr

/-- `src/unnamed/part_000` lines 94-97: each QR event overwrites
`sock.__lastQr`. -/
def applyQr (r : Ref) (qr : String) : Ref :=
  { r with sock := { r.sock with lastQr := some qr } }

def applyQrs (r : Ref) (qs : List String) : Ref := qs.foldl applyQr r

end Part000

namespace Part001

/-- The QR-relevant globals of `part_001`: `latestQR` in RAM and the
debug copy in `QR_FILE` on disk. -/
structure QrState where
  latestQR : Option String
  qrFile : Option String
deriving DecidableEq, Repr

/-- `src/unnamed/part_001` lines 135-139: a QR event overwrites both the
RAM copy and the file. -/
def applyQr (_st : QrState) (qr : String) : QrState := ⟨some qr, some qr⟩

def applyQrs (st : QrState) (qs : List String) : QrState :=
  qs.foldl applyQr st

/-- `src/unnamed/part_001` lines 184-197 (`GET /session/qr`): prefer the
RAM copy, fall back to the file, answer `{ qr: null }` when neither
exists, otherwise a JSON data URL of the QR text. -/
def qrHandler (enc : String → String) (st : QrState) : QrResp :=
  match (match st.latestQR with
         | some q => some q
         | Option.none => st.qrFile) with
  | Option.none => .jsonQrNull
  | some q => .jsonQr (qrToDataURL enc q)

end Part001

/-- A fold that overwrites an optional field with (a function of) each
event ends holding the last event. -/
theorem foldl_overwrite_last {σ α β : Type} (f : σ → α → σ) (g : α → β)
    (read : σ → Option β) (h : ∀ st a, read (f st a) = some (g a)) :
    ∀ (qs : List α) (st : σ) (q : α), qs.getLast? = some q →
      read (qs.foldl f st) = some (g q) := by
  intro qs
  induction qs with
  | nil => intro st q hq; simp at hq
  | cons a rest ih =>
      intro st q hq
      cases rest with
      | nil =>
          simp at hq
          subst hq
          simpa using h st a
      | cons b l =>
          rw [List.getLast?_cons_cons] at hq
          simpa using ih (f st a) q hq

/-- C7 (counterexample): in `part_000`, an unknown session id answers
404 with body `Session not found`, which is neither of the claim's two
not-ready results (404 `QR not ready` or a null `qr` field). -/
theorem c7_counterexample :
    Part000.qrHandler [] "s1" = QrResp.notFound "Session not found" ∧
    Part000.qrHandler [] "s1" ≠ QrResp.notFound "QR not ready" ∧
    Part000.qrHandler [] "s1" ≠ QrResp.jsonQrNull := by
  decide

/-- C7 (amended): each QR endpoint renders the most recently received
QR when one is available (`ServerA`: PNG of the base64 part of the last
QR's data URL; `Part000`: PNG buffer of the last QR text; `Part001`:
JSON data URL of the last QR text), and answers a not-ready result when
none was received — 404 `QR not ready` in `ServerA` and in `Part000`
for a known session, `{ qr: null }` in `Part001` — except that an
unknown session answers 404 `QR not ready` in `ServerA` but
404 `Session not found` in `Part000`. -/
theorem c7_amended_qr :
    ∀ (enc : String → String) (sessionsA : List (String × ServerA.SessState))
      (sessions0 : List (String × Part000.Ref)) (id q : String)
      (qs : List String) (stA : ServerA.SessState) (ref : Part000.Ref),
      qs.getLast? = some q →
      (Js.mapGet sessionsA id = some stA →
        ServerA.qrHandler
            (Js.mapUpdate sessionsA id (fun s => ServerA.applyQrs enc s qs))
            id =
          QrResp.png (ServerA.base64Part (qrToDataURL enc q))) ∧
      (Js.mapGet sessionsA id = Option.none →
        ServerA.qrHandler sessionsA id = QrResp.notFound "QR not ready") ∧
      (Js.mapGet sessionsA id = some stA → stA.lastQrDataUrl = Option.none →
        ServerA.qrHandler sessionsA id = QrResp.notFound "QR not ready") ∧
      (Js.mapGet sessions0 id = some ref →
        Part000.qrHandler
            (Js.mapUpdate sessions0 id (fun r => Part000.applyQrs r qs)) id =
          QrResp.pngBuf q) ∧
      (Js.mapGet sessions0 id = Option.none →
        Part000.qrHandler sessions0 id =
          QrResp.notFound "Session not found") ∧
      (Js.mapGet sessions0 id = some ref → ref.sock.lastQr = Option.none →
        Part000.qrHandler sessions0 id = QrResp.notFound "QR not ready") ∧
      (∀ (st : Part001.QrState),
        Part001.qrHandler enc (Part001.applyQrs st qs) =
          QrResp.jsonQr (qrToDataURL enc q)) ∧
      Part001.qrHandler enc ⟨Option.none, Option.none⟩ = QrResp.jsonQrNull := by
  intro enc sessionsA sessions0 id q qs stA ref hlast
  have hA : ∀ (st : ServerA.SessState),
      (ServerA.applyQrs enc st qs).lastQrDataUrl =
        some (qrToDataURL enc q) := by
    intro st
    exact foldl_overwrite_last (ServerA.applyQr enc) (qrToDataURL enc)
      (fun s => s.lastQrDataUrl) (fun _ _ => rfl) qs st q hlast
  have h0 : ∀ (r : Part000.Ref),
      (Part000.applyQrs r qs).sock.lastQr = some q := by
    intro r
    exact foldl_overwrite_last Part000.applyQr (fun a => a)
      (fun r => r.sock.lastQr) (fun _ _ => rfl) qs r q hlast
  have h1 : ∀ (st : Part001.QrState),
      (Part001.applyQrs st qs).latestQR = some q := by
    intro st
    exact foldl_overwrite_last Part001.applyQr (fun a => a)
      (fun s => s.latestQR) (fun _ _ => rfl) qs st q hlast
  refine ⟨?_, ?_, ?_, ?_, ?_, ?_, ?_, rfl⟩
  · intro hm
    have hup :
        (Js.mapUpdate sessionsA id
            (fun s => ServerA.applyQrs enc s qs)).lookup id =
          some (ServerA.applyQrs enc stA qs) := by
      rw [Js.lookup_mapUpdate]
      have hm2 : List.lookup id sessionsA = some stA := hm
      rw [hm2]
      rfl
    unfold ServerA.qrHandler
    have hup2 : Js.mapGet
        (Js.mapUpdate sessionsA id (fun s => ServerA.applyQrs enc s qs)) id =
          some (ServerA.applyQrs enc stA qs) := hup
    rw [hup2]
    simp [hA stA]
  · intro hm
    unfold ServerA.qrHandler
    rw [hm]
  · intro hm hq
    unfold ServerA.qrHandler
    rw [hm]
    simp [hq]
  · intro hm
    have hup2 : Js.mapGet
        (Js.mapUpdate sessions0 id (fun r => Part000.applyQrs r qs)) id =
          some (Part000.applyQrs ref qs) := by
      have hm2 : List.lookup id sessions0 = some ref := hm
      show (Js.mapUpdate sessions0 id (fun r => Part000.applyQrs r qs)).lookup
          id = some (Part000.applyQrs ref qs)
      rw [Js.lookup_mapUpdate, hm2]
      rfl
    unfold Part000.qrHandler
    rw [hup2]
    simp [h0 ref]
  · intro hm
    unfold Part000.qrHandler
    rw [hm]
  · intro hm hq
    unfold Part000.qrHandler
    rw [hm]
    simp [hq]
  · intro st
    unfold Part001.qrHandler
    rw [h1 st]

/-- C7 witness: the amended statement at a concrete two-QR history for
each variant. -/
theorem c7_amended_qr_witness :
    ServerA.qrHandler
        (Js.mapUpdate [("s1", ⟨Option.none, Option.none⟩)] "s1"
          (fun s => ServerA.applyQrs (fun x => x) s ["QR1", "QR2"])) "s1" =
      QrResp.png (ServerA.base64Part (qrToDataURL (fun x => x) "QR2")) ∧
    Part000.qrHandler
        (Js.mapUpdate [("s1", ⟨⟨Option.none, Option.none⟩, ⟨[]⟩⟩)] "s1"
          (fun r => Part000.applyQrs r ["QR1", "QR2"])) "s1" =
      QrResp.pngBuf "QR2" ∧
    Part001.qrHandler (fun x => x)
        (Part001.applyQrs ⟨Option.none, Option.none⟩ ["QR1", "QR2"]) =
      QrResp.jsonQr (qrToDataURL (fun x => x) "QR2") := by
  have H := c7_amended_qr (fun x => x)
    [("s1", ⟨Option.none, Option.none⟩)]
    [("s1", ⟨⟨Option.none, Option.none⟩, ⟨[]⟩⟩)]
    "s1" "QR2" ["QR1", "QR2"]
    ⟨Option.none, Option.none⟩ ⟨⟨Option.none, Option.none⟩, ⟨[]⟩⟩
    (by decide)
  exact ⟨H.1 (by decide), H.2.2.2.1 (by decide), H.2.2.2.2.2.2.1 _⟩


/-! ## GET /sessions/:id/chats (claim C10)

`src/unnamed/part_000` lines 161-178: the handler computes
`limit = Math.min(Number(req.query.limit || 200), 1000)`, sorts the
store's chats by descending `lastMessageRecvTimestamp` and answers
`chats.slice(0, limit)`.

The JS `Number` conversion of the limit string is kept abstract: every
JS number it can produce is `NaN`, `±Infinity` or a finite double, and
every finite double is a rational, so its results are modelled by
`JsNum` and the conversion itself by a universally quantified
`toNumber : String → JsNum`. `Math.min` with a `NaN` operand is `NaN`;
`Array.slice(0, end)` converts `end` with `ToIntegerOrInfinity`
(`NaN → 0`, `±∞` kept, finite values truncated toward zero), then a
negative end counts from the end of the array and a nonnegative one is
clamped to the length. -/

inductive JsNum where
  | nan
  | negInf
  | posInf
  | rat (q : ℚ)
deriving DecidableEq, Repr

namespace Part000

/-- ECMAScript `truncate`: round a finite number toward zero
(computable form via the numerator-denominator integer division of the
nonnegative part). -/
def jsTrunc (q : ℚ) : Int :=
  if q < 0 then -((-q).num / ((-q).den : Int)) else q.num / (q.den : Int)

/-- `Math.min(x, 1000)`. -/
def jsMin1000 : JsNum → JsNum
  | .nan => .nan
  | .negInf => .negInf
  | .posInf => .rat 1000
  | .rat q => .rat (min q 1000)

/-- `Number(req.query.limit || 200)`: an absent or empty parameter is
falsy and falls back to the number 200; otherwise the string goes
through the runtime's `Number`, passed in as `toNumber`. -/
def limitNumOf (toNumber : String → JsNum) (limitParam : Option String) :
    JsNum :=
  match limitParam with
  | Option.none => .rat 200
  | some s => if s = "" then .rat 200 else toNumber s

/-- `Number(c.lastMessageRecvTimestamp || 0)`: the sort key. -/
def chatKey (c : Chat) : Int := c.lastMessageRecvTimestamp.getD 0

/-- The comparator sort `chats.sort((a, b) => key(b) - key(a))`,
realised as an insertion sort by descending key. -/
def insertChat (c : Chat) : List Chat → List Chat
  | [] => [c]
  | d :: rest =>
      if chatKey d < chatKey c then c :: d :: rest else d :: insertChat c rest

def sortChats : List Chat → List Chat
  | [] => []
  | c :: rest => insertChat c (sortChats rest)

/-- `arr.slice(0, e)` for an array of chats, after the limit
computation: `NaN` becomes end index 0 (empty), `-∞` yields the empty
array, `+∞` the whole array, and a finite end is truncated toward zero,
counted from the end when negative and clamped to the length
otherwise. -/
def jsSliceTo (l : List Chat) (e : JsNum) : List Chat :=
  match e with
  | .nan => []
  | .negInf => []
  | .posInf => l
  | .rat q =>
      if jsTrunc q < 0 then
        l.take (max ((l.length : Int) + jsTrunc q) 0).toNat
      else l.take (min (jsTrunc q) (l.length : Int)).toNat

/-- The chats route for a known session: sort the store's chats, then
slice with `Math.min(Number(limit || 200), 1000)`. -/
def chatsHandler (toNumber : String → JsNum) (chats : List Chat)
    (limitParam : Option String) : List Chat :=
  jsSliceTo (sortChats chats) (jsMin1000 (limitNumOf toNumber limitParam))

/-- Descending order on the chats sort key. -/
def keyGE (a b : Chat) : Prop := chatKey b ≤ chatKey a

end Part000

theorem jsTrunc_eq (q : ℚ) :
    Part000.jsTrunc q = if q < 0 then -(⌊-q⌋) else ⌊q⌋ := by
  unfold Part000.jsTrunc
  rw [Rat.floor_def, Rat.floor_def]

theorem jsTrunc_nonneg {q : ℚ} (h : 0 ≤ q) : 0 ≤ Part000.jsTrunc q := by
  rw [jsTrunc_eq, if_neg (not_lt.mpr h)]
  exact Int.le_floor.mpr (by exact_mod_cast h)

theorem jsTrunc_le_1000 {q : ℚ} (h0 : 0 ≤ q) (h : q ≤ 1000) :
    Part000.jsTrunc q ≤ 1000 := by
  rw [jsTrunc_eq, if_neg (not_lt.mpr h0)]
  have h1 : (⌊q⌋ : ℚ) ≤ q := Int.floor_le q
  have h2 : (⌊q⌋ : ℚ) ≤ 1000 := le_trans h1 h
  exact_mod_cast h2

theorem jsSliceTo_nan (l : List Part000.Chat) :
    Part000.jsSliceTo l JsNum.nan = [] := rfl

theorem jsSliceTo_negInf (l : List Part000.Chat) :
    Part000.jsSliceTo l JsNum.negInf = [] := rfl

theorem jsSliceTo_posInf (l : List Part000.Chat) :
    Part000.jsSliceTo l JsNum.posInf = l := rfl

theorem jsSliceTo_rat (l : List Part000.Chat) (q : ℚ) :
    Part000.jsSliceTo l (JsNum.rat q) =
      if Part000.jsTrunc q < 0 then
        l.take (max ((l.length : Int) + Part000.jsTrunc q) 0).toNat
      else l.take (min (Part000.jsTrunc q) (l.length : Int)).toNat := rfl

theorem limitNumOf_some (f : String → JsNum) (s : String) :
    Part000.limitNumOf f (some s) =
      if s = "" then JsNum.rat 200 else f s := rfl

theorem insertChat_self_replicate (c : Part000.Chat) :
    ∀ (n : Nat), Part000.insertChat c (List.replicate n c) =
      List.replicate (n + 1) c := by
  intro n
  induction n with
  | zero => rfl
  | succ k ih =>
      rw [List.replicate_succ, Part000.insertChat]
      rw [if_neg (by simp)]
      rw [ih]
      rfl

theorem sortChats_replicate (c : Part000.Chat) :
    ∀ (n : Nat), Part000.sortChats (List.replicate n c) =
      List.replicate n c := by
  intro n
  induction n with
  | zero => rfl
  | succ k ih =>
      rw [List.replicate_succ, Part000.sortChats, ih,
        insertChat_self_replicate]
      rfl

theorem mem_insertChat {c x : Part000.Chat} :
    ∀ {l : List Part000.Chat},
      x ∈ Part000.insertChat c l ↔ x = c ∨ x ∈ l := by
  intro l
  induction l with
  | nil => simp [Part000.insertChat]
  | cons d rest ih =>
      rw [Part000.insertChat]
      by_cases hlt : Part000.chatKey d < Part000.chatKey c
      · rw [if_pos hlt]
        simp
      · rw [if_neg hlt]
        simp [ih]
        tauto

theorem insertChat_pairwise (c : Part000.Chat) :
    ∀ (l : List Part000.Chat), l.Pairwise Part000.keyGE →
      (Part000.insertChat c l).Pairwise Part000.keyGE := by
  intro l
  induction l with
  | nil =>
      intro _
      simp [Part000.insertChat]
  | cons d rest ih =>
      intro hp
      rcases List.pairwise_cons.mp hp with ⟨hd, hrest⟩
      rw [Part000.insertChat]
      by_cases hlt : Part000.chatKey d < Part000.chatKey c
      · rw [if_pos hlt]
        refine List.pairwise_cons.mpr ⟨?_, hp⟩
        intro x hx
        rcases List.mem_cons.mp hx with rfl | hx
        · exact le_of_lt hlt
        · exact le_trans (hd x hx) (le_of_lt hlt)
      · rw [if_neg hlt]
        refine List.pairwise_cons.mpr ⟨?_, ih hrest⟩
        intro x hx
        rcases mem_insertChat.mp hx with rfl | hx
        · exact le_of_not_lt hlt
        · exact hd x hx

theorem sortChats_pairwise :
    ∀ (l : List Part000.Chat),
      (Part000.sortChats l).Pairwise Part000.keyGE := by
  intro l
  induction l with
  | nil => simp [Part000.sortChats]
  | cons c rest ih =>
      rw [Part000.sortChats]
      exact insertChat_pairwise c _ ih

set_option maxRecDepth 40000 in
/-- C10 (counterexample): with 1002 chats in the store, a negative
`limit` reaches `slice(0, limit)` as a negative end index and keeps all
but the trailing chats. `Number("-1") = -1` and `Number("-1.5") = -1.5`
(the abstract conversion is instantiated accordingly); `-1.5` is
truncated toward zero to `-1` by `ToIntegerOrInfinity`, so both
requests return 1001 chats — more than 1000. -/
theorem c10_counterexample :
    1000 <
      (Part000.chatsHandler (fun _ => JsNum.rat (-1))
          (List.replicate 1002 ⟨"c", Option.none⟩) (some "-1")).length ∧
    1000 <
      (Part000.chatsHandler (fun _ => JsNum.rat (-3/2))
          (List.replicate 1002 ⟨"c", Option.none⟩) (some "-1.5")).length := by
  constructor
  · unfold Part000.chatsHandler
    rw [sortChats_replicate]
    decide
  · unfold Part000.chatsHandler
    rw [sortChats_replicate]
    have ht : Part000.jsTrunc (-3/2 : ℚ) = -1 := by
      rw [jsTrunc_eq, if_pos (by norm_num)]
      norm_num
    have h1 : Part000.limitNumOf (fun _ => JsNum.rat (-3/2)) (some "-1.5") =
        JsNum.rat (-3/2) := by
      rw [limitNumOf_some, if_neg (by decide)]
    have h2 : Part000.jsMin1000 (JsNum.rat (-3/2)) = JsNum.rat (-3/2) := by
      show JsNum.rat (min (-3/2 : ℚ) 1000) = JsNum.rat (-3/2)
      rw [min_eq_left (by norm_num)]
    rw [h1, h2, jsSliceTo_rat, ht]
    rw [if_pos (by norm_num)]
    simp only [List.length_take, List.length_replicate]
    norm_num

/-- C10 (amended): for every JS `Number` conversion of the limit string
(abstract `toNumber`; its outputs — `NaN`, `±Infinity` or finite
rationals — cover all JS numbers), the chats returned by
`GET /sessions/:id/chats` are always ordered by descending
`lastMessageRecvTimestamp`, and whenever the converted limit is not a
negative finite number — in particular for a missing, empty,
non-numeric (`NaN`), zero, positive, over-large or infinite `limit`
parameter — at most 1000 chats are returned. A negative finite limit
(integer or not), however, reaches `slice(0, ·)` as a negative end
index and can exceed 1000 (see the counterexample). -/
theorem c10_amended_chats :
    ∀ (toNumber : String → JsNum) (chats : List Part000.Chat)
      (lp : Option String),
      List.Pairwise Part000.keyGE
        (Part000.chatsHandler toNumber chats lp) ∧
      ((∀ (q : ℚ), Part000.limitNumOf toNumber lp = JsNum.rat q → 0 ≤ q) →
        (Part000.chatsHandler toNumber chats lp).length ≤ 1000) := by
  intro toNumber chats lp
  constructor
  · unfold Part000.chatsHandler
    have hs := sortChats_pairwise chats
    cases Part000.jsMin1000 (Part000.limitNumOf toNumber lp) with
    | nan =>
        rw [jsSliceTo_nan]
        exact List.Pairwise.nil
    | negInf =>
        rw [jsSliceTo_negInf]
        exact List.Pairwise.nil
    | posInf =>
        rw [jsSliceTo_posInf]
        exact hs
    | rat q =>
        rw [jsSliceTo_rat]
        by_cases hneg : Part000.jsTrunc q < 0
        · rw [if_pos hneg]
          exact hs.sublist (List.take_sublist _ _)
        · rw [if_neg hneg]
          exact hs.sublist (List.take_sublist _ _)
  · intro hnn
    unfold Part000.chatsHandler
    cases hl : Part000.limitNumOf toNumber lp with
    | nan =>
        rw [show Part000.jsMin1000 JsNum.nan = JsNum.nan from rfl,
          jsSliceTo_nan]
        simp
    | negInf =>
        rw [show Part000.jsMin1000 JsNum.negInf = JsNum.negInf from rfl,
          jsSliceTo_negInf]
        simp
    | posInf =>
        rw [show Part000.jsMin1000 JsNum.posInf = JsNum.rat 1000 from rfl,
          jsSliceTo_rat]
        have h0 : (0 : Int) ≤ Part000.jsTrunc (1000 : ℚ) :=
          jsTrunc_nonneg (by norm_num)
        rw [if_neg (not_lt.mpr h0)]
        have h1 : Part000.jsTrunc (1000 : ℚ) ≤ 1000 :=
          jsTrunc_le_1000 (by norm_num) (by norm_num)
        calc (List.take
                (min (Part000.jsTrunc (1000 : ℚ))
                  ((Part000.sortChats chats).length : Int)).toNat
                (Part000.sortChats chats)).length
            ≤ (min (Part000.jsTrunc (1000 : ℚ))
                ((Part000.sortChats chats).length : Int)).toNat :=
              List.length_take_le _ _
          _ ≤ (Part000.jsTrunc (1000 : ℚ)).toNat :=
              Int.toNat_le_toNat (min_le_left _ _)
          _ ≤ 1000 := by omega
    | rat q =>
        have hq0 : 0 ≤ q := hnn q hl
        rw [show Part000.jsMin1000 (JsNum.rat q) =
            JsNum.rat (min q 1000) from rfl, jsSliceTo_rat]
        have hm0 : (0 : ℚ) ≤ min q 1000 := le_min hq0 (by norm_num)
        have h0 : (0 : Int) ≤ Part000.jsTrunc (min q 1000) :=
          jsTrunc_nonneg hm0
        have h1 : Part000.jsTrunc (min q 1000) ≤ 1000 :=
          jsTrunc_le_1000 hm0 (min_le_right _ _)
        rw [if_neg (not_lt.mpr h0)]
        calc (List.take
                (min (Part000.jsTrunc (min q 1000))
                  ((Part000.sortChats chats).length : Int)).toNat
                (Part000.sortChats chats)).length
            ≤ (min (Part000.jsTrunc (min q 1000))
                ((Part000.sortChats chats).length : Int)).toNat :=
              List.length_take_le _ _
          _ ≤ (Part000.jsTrunc (min q 1000)).toNat :=
              Int.toNat_le_toNat (min_le_left _ _)
          _ ≤ 1000 := by omega

/-- C10 witness: a concrete store with a missing `limit` parameter
(converted limit 200, nonnegative): the result is descending and within
the cap. -/
theorem c10_amended_chats_witness :
    List.Pairwise Part000.keyGE
      (Part000.chatsHandler (fun _ => JsNum.nan)
        [⟨"a", some 3⟩, ⟨"b", some 7⟩, ⟨"c", Option.none⟩] Option.none) ∧
    (Part000.chatsHandler (fun _ => JsNum.nan)
        [⟨"a", some 3⟩, ⟨"b", some 7⟩, ⟨"c", Option.none⟩]
        Option.none).length ≤ 1000 := by
  have H := c10_amended_chats (fun _ => JsNum.nan)
    [⟨"a", some 3⟩, ⟨"b", some 7⟩, ⟨"c", Option.none⟩] Option.none
  refine ⟨H.1, H.2 ?_⟩
  intro q hq
  have h2 : JsNum.rat 200 = JsNum.rat q := hq
  injection h2 with h3
  rw [← h3]
  norm_num
